import Mathlib

/-!
Verification of the PayPal payment-provider adapter
(`HectaSquareUK/hecta-medusa-payment-paypal`).

The repository bundles three revisions of the same adapter file:
the current `src/src/service.ts`, and two legacy revisions
(`src/unnamed/part_000`, `src/unnamed/part_001`; the shipped
`src/dist/service.js` matches the legacy behaviour).  Definitions below are
shallow embeddings of those sources: dynamic JS records become structures of
`Option` fields, JS truthiness checks become explicit `Bool`-valued tests,
thrown `MedusaError`s become `Except`, and every network call made through a
controller is both (a) recorded in an explicit call log and (b) answered by a
`CallResult` oracle argument standing for the processor's response.
Where the current and a legacy revision differ in behaviour the two variants
are embedded side by side (suffix `Legacy` / `V1`).
-/

namespace PayPal

/-- JS truthiness of a possibly-undefined string: `undefined` and the empty
string are falsy, any other string is truthy (embeds `if (x)` on
`string | undefined`). -/
def strTruthy : Option String → Bool
  | none => false
  | some s => !s.isEmpty

/-- Embeds the JS short-circuit `a || b` on possibly-undefined strings:
yields `a` when `a` is truthy, otherwise `b`. -/
def jsOr (a b : Option String) : Option String :=
  if strTruthy a then a else b

/-- Embeds `s || dflt` where the result is used as a plain string
(e.g. `obj?.amount?.value || "0"`). -/
def jsOrStr (a : Option String) (dflt : String) : String :=
  match a with
  | none => dflt
  | some s => if s.isEmpty then dflt else s

/-- Embeds `x || undefined` (e.g. `data?.session_id || undefined`). -/
def jsOrUndef (a : Option String) : Option String :=
  if strTruthy a then a else none

/-- A capture record nested under a purchase unit
(`captures[0].id` is what refunds need). -/
structure Capture where
  id : Option String
deriving DecidableEq

/-- The `payments` object of an order / purchase unit
(`payments?.captures?.[0]`). -/
structure PaymentsObj where
  captures : Option (List Capture)
deriving DecidableEq

/-- The `amount` object of a purchase unit, carrying the currency code in
either casing. -/
structure AmountObj where
  currencyCode : Option String
  currency_code : Option String
  value : Option String
deriving DecidableEq

/-- A purchase unit of a PayPal order. -/
structure PurchaseUnit where
  amount : Option AmountObj
  payments : Option PaymentsObj
deriving DecidableEq

/-- Duck-typed order / session-data record as the adapter reads it: every
field the source dereferences, each possibly undefined
(camelCase and snake_case variants both present). -/
structure OrderData where
  id : Option String
  status : Option String
  capture_id : Option String
  currency_code : Option String
  purchaseUnits : Option (List PurchaseUnit)
  purchase_units : Option (List PurchaseUnit)
  payments : Option PaymentsObj
deriving DecidableEq

/-- The all-undefined record, standing for the JS `{}` produced by
`data || {}`. -/
def OrderData.empty : OrderData :=
  ⟨none, none, none, none, none, none, none⟩

/-- `result?.purchaseUnits?.[0]?.payments?.captures?.[0]?.id`
(camelCase nested capture-id path, `service.ts:100`). -/
def capCamel (r : OrderData) : Option String :=
  ((((r.purchaseUnits.bind List.head?).bind
    PurchaseUnit.payments).bind PaymentsObj.captures).bind List.head?).bind Capture.id

/-- `result?.purchase_units?.[0]?.payments?.captures?.[0]?.id`
(snake_case nested capture-id path, `service.ts:104`). -/
def capSnake (r : OrderData) : Option String :=
  ((((r.purchase_units.bind List.head?).bind
    PurchaseUnit.payments).bind PaymentsObj.captures).bind List.head?).bind Capture.id

/-- `result?.payments?.captures?.[0]?.id`
(final fallback path, `service.ts:108`). -/
def capFallback (r : OrderData) : Option String :=
  ((r.payments.bind PaymentsObj.captures).bind List.head?).bind Capture.id

/-- Embeds `getCaptureId` of `src/src/service.ts` lines 92-109: flat
`capture_id` first, then the camelCase nested path, then the snake_case
nested path, then the fallback path (each guarded by JS truthiness). -/
def getCaptureId (result : OrderData) : Option String :=
  if strTruthy result.capture_id then result.capture_id
  else if strTruthy (capCamel result) then capCamel result
  else if strTruthy (capSnake result) then capSnake result
  else capFallback result

/-- `getCaptureId` applied to a possibly-undefined record, as
`refundPayment` does (`this.getCaptureId(data)` with `data` optional:
every optional-chaining path yields `undefined` on `undefined`). -/
def getCaptureIdOpt (data : Option OrderData) : Option String :=
  match data with
  | none => none
  | some r => getCaptureId r

/-- Embeds `getCurrencyCode` of `src/src/service.ts` lines 114-126: flat
`currency_code`, then the camelCase purchase-unit path, then the snake_case
path, defaulting to `"USD"`. -/
def getCurrencyCode (data : OrderData) : String :=
  if strTruthy data.currency_code then data.currency_code.getD "USD"
  else if strTruthy ((data.purchaseUnits.bind List.head?).bind
      (fun u => u.amount.bind AmountObj.currencyCode)) then
    (((data.purchaseUnits.bind List.head?).bind
      (fun u => u.amount.bind AmountObj.currencyCode)).getD "USD")
  else if strTruthy ((data.purchase_units.bind List.head?).bind
      (fun u => u.amount.bind AmountObj.currency_code)) then
    (((data.purchase_units.bind List.head?).bind
      (fun u => u.amount.bind AmountObj.currency_code)).getD "USD")
  else "USD"

/-- `getCurrencyCode` on a possibly-undefined record (as `refundPayment`
passes its optional session data). -/
def getCurrencyCodeOpt (data : Option OrderData) : String :=
  match data with
  | none => "USD"
  | some r => getCurrencyCode r

/-- The decimal digit character for `d < 10` (ASCII `'0' + d`), as JS
number-to-string rendering produces. -/
def digitChar (d : ℕ) : Char := Char.ofNat (48 + d)

/-- Base-10 rendering of a natural number, most significant digit first,
no leading zeros (fuel-structured so it computes by kernel reduction; any
`fuel > 0` with `n < 10 ^ fuel` yields the full numeral).  This embeds the
JS number-to-string conversion for nonnegative integers. -/
def natChars : ℕ → ℕ → List Char
  | 0, _ => []
  | fuel + 1, n =>
    if n < 10 then [digitChar n]
    else natChars fuel (n / 10) ++ [digitChar (n % 10)]

/-- JS rendering of a natural number as a string. -/
def renderNat (n : ℕ) : String := ⟨natChars (n + 1) n⟩

/-- Inverse of `digitChar`: the digit value of an ASCII digit character. -/
def charToDigit (c : Char) : Option ℕ :=
  if 48 ≤ c.toNat ∧ c.toNat ≤ 57 then some (c.toNat - 48) else none

/-- Accumulating base-10 parse of a digit list, most significant first. -/
def parseDigitsAux : List Char → ℕ → Option ℕ
  | [], acc => some acc
  | c :: cs, acc =>
    match charToDigit c with
    | some d => parseDigitsAux cs (10 * acc + d)
    | none => none

/-- Parse of a nonempty all-digit character list as a natural number. -/
def parseNat : List Char → Option ℕ
  | [] => none
  | c :: cs => parseDigitsAux (c :: cs) 0

/-- Split a character list at its first `'.'`, when one is present. -/
def splitDot : List Char → Option (List Char × List Char)
  | [] => none
  | c :: cs =>
    if c = '.' then some ([], cs)
    else
      match splitDot cs with
      | some p => some (c :: p.1, p.2)
      | none => none

/-- Numeric value of a canonical decimal numeral string (`"12.34"`,
`"0"`, ...), embedding JS `parseFloat` on the decimal-numeral strings the
adapter produces and consumes; `none` stands for `NaN`. -/
def parseFloatQ (s : String) : Option ℚ :=
  match splitDot s.data with
  | none => (parseNat s.data).map (fun n => (n : ℚ))
  | some p =>
    match parseNat p.1, parseNat p.2 with
    | some i, some f => some ((i : ℚ) + (f : ℚ) / (10 : ℚ) ^ p.2.length)
    | _, _ => none

/-- The host's payment-session status enumeration
(`PaymentSessionStatus` of the Medusa framework). -/
inductive PaymentSessionStatus where
  | pending
  | requiresMore
  | captured
  | canceled
  | error
deriving DecidableEq

/-- `{ status, data }` record returned by the private `getStatus` helper and
by the status-returning operations. -/
structure StatusResult where
  status : PaymentSessionStatus
  data : OrderData
deriving DecidableEq

/-- Embeds the private `getStatus` of `src/src/service.ts` lines 438-475
(identical in every revision): a total map from the order's `status` string
to the host status, echoing the order as `data`.  The JS `switch` is
embedded as the corresponding ordered equality tests; the default branch
(any unrecognized or absent status) yields `pending`.  Totality of this
Lean function embeds "never throws". -/
def getStatus (paypalOrder : OrderData) : StatusResult :=
  let s := paypalOrder.status
  if s = some "CREATED" then ⟨.pending, paypalOrder⟩
  else if s = some "SAVED" then ⟨.pending, paypalOrder⟩
  else if s = some "APPROVED" then ⟨.pending, paypalOrder⟩
  else if s = some "PAYER_ACTION_REQUIRED" then ⟨.requiresMore, paypalOrder⟩
  else if s = some "COMPLETED" then ⟨.captured, paypalOrder⟩
  else if s = some "VOIDED" then ⟨.canceled, paypalOrder⟩
  else ⟨.pending, paypalOrder⟩

/-- Fraction part of a JS `toFixed(2)` rendering: the remainder `n < 100`
padded to exactly two digit characters. -/
def pad2 (n : ℕ) : List Char :=
  if n < 10 then ['0', digitChar n] else natChars (n + 1) n

/-- Embeds `((amount as number) / 100).toFixed(2)` of the legacy revisions
(`src/unnamed/part_000` line 100, `part_001` line 118, matching the shipped
`dist/service.js`): the minor-unit integer amount divided by 100 and
rendered with exactly two fraction digits. -/
def toFixed2Cents (A : ℕ) : String :=
  ⟨natChars (A / 100 + 1) (A / 100) ++ '.' :: pad2 (A % 100)⟩

/-- Embeds `new BigNumber(amount).numeric.toFixed(2)` of the current
revision (`src/src/service.ts` lines 147 and 334) for an integer amount:
the amount is rendered as-is with two fraction digits — no division by
100 takes place in this revision. -/
def bignumToFixed2 (A : ℕ) : String :=
  ⟨natChars (A + 1) A ++ ['.', '0', '0']⟩

/-- Embeds JS `.toUpperCase()` on the ASCII currency codes the adapter
handles. -/
def jsToUpper (s : String) : String := ⟨s.data.map Char.toUpper⟩

/-- Parse a decimal-string amount back into integer minor units (cents):
inverse reading of the processor's two-fraction-digit decimal form.  A
string without a dot is read as a whole major-unit amount. -/
def decimalToCents (s : String) : Option ℕ :=
  match splitDot s.data with
  | some p =>
    if p.2.length = 2 then
      match parseNat p.1, parseNat p.2 with
      | some i, some f => some (100 * i + f)
      | _, _ => none
    else none
  | none => (parseNat s.data).map (fun n => 100 * n)

/-- One network call to the processor, as recorded in an operation's call
log (arguments restricted to the fields the claims are about). -/
inductive Call where
  | createOrder (currencyCode : String) (value : String) (customId : Option String)
  | captureOrder (id : String)
  | getOrder (id : String)
  | refundCaptured (captureId : String) (amount : Option (String × String))
  | createSetupToken (customerId : String)
  | listTokens (customerId : String) (pageSize : ℕ)
deriving DecidableEq

/-- A failed processor call as the SDK surfaces it: an HTTP status code
(when one exists) and the message the adapter wraps
(`error.message || error`). -/
structure ApiError where
  statusCode : Option ℕ
  message : String
deriving DecidableEq

/-- Oracle for the processor's response to one call. -/
inductive CallResult (α : Type) where
  | ok (result : α)
  | err (e : ApiError)
deriving DecidableEq

/-- The two `MedusaError` kinds the adapter throws. -/
inductive MedusaErrType where
  | invalidData
  | paymentAuthorizationError
deriving DecidableEq

/-- A thrown `MedusaError`. -/
structure MedusaErr where
  type : MedusaErrType
  message : String
deriving DecidableEq

instance {ε α : Type} [DecidableEq ε] [DecidableEq α] : DecidableEq (Except ε α) := fun x y =>
  match x, y with
  | .ok a, .ok b => if h : a = b then .isTrue (by rw [h]) else .isFalse (by simp [h])
  | .error a, .error b => if h : a = b then .isTrue (by rw [h]) else .isFalse (by simp [h])
  | .ok _, .error _ => .isFalse (by simp)
  | .error _, .ok _ => .isFalse (by simp)

/-- Output of `initiatePayment`: `{ id, ...getStatus(order) }`. -/
structure InitOut where
  id : Option String
  status : PaymentSessionStatus
  data : OrderData
deriving DecidableEq

/-- Embeds `initiatePayment` of `src/src/service.ts` lines 135-181
(current revision): creates an order whose purchase-unit amount value is
`new BigNumber(amount).numeric.toFixed(2)` and whose currency is
upper-cased, with `customId := data?.session_id || undefined`; a processor
rejection is wrapped in an authorization error.  (The saved-token
`paymentSource` body variant of lines 156-166 only shapes body fields no
claim mentions and is not recorded in the call log.) -/
def initiatePayment (currency_code : String) (amount : ℕ) (session_id : Option String)
    (res : CallResult OrderData) : Except MedusaErr InitOut × List Call :=
  let call := Call.createOrder (jsToUpper currency_code) (bignumToFixed2 amount)
    (jsOrUndef session_id)
  match res with
  | .ok order => (.ok ⟨order.id, (getStatus order).status, (getStatus order).data⟩, [call])
  | .err e =>
    (.error ⟨.paymentAuthorizationError, "PayPal initiatePayment failed: " ++ e.message⟩, [call])

/-- Embeds `initiatePayment` of the legacy revision `src/unnamed/part_000`
lines 88-120 (matching `dist/service.js`): identical except the amount
value is `((amount as number) / 100).toFixed(2)` — minor units divided by
100. -/
def initiatePaymentLegacy (currency_code : String) (amount : ℕ) (session_id : Option String)
    (res : CallResult OrderData) : Except MedusaErr InitOut × List Call :=
  let call := Call.createOrder (jsToUpper currency_code) (toFixed2Cents amount)
    (jsOrUndef session_id)
  match res with
  | .ok order => (.ok ⟨order.id, (getStatus order).status, (getStatus order).data⟩, [call])
  | .err e =>
    (.error ⟨.paymentAuthorizationError, "PayPal initiatePayment failed: " ++ e.message⟩, [call])

/-- Embeds `getPaymentStatus` of `src/src/service.ts` lines 259-302: with
no truthy order id it returns `pending` with `data || {}` before any call;
otherwise it issues `getOrder` and either maps the fetched order's status
(merging `capture_id` and `currency_code` into the data) or, when the
fetch fails, returns an `error`-status value (the `catch` swallows the
exception — the non-`Except` return type embeds that this operation never
throws). -/
def getPaymentStatus (data : Option OrderData) (res : CallResult OrderData) :
    StatusResult × List Call :=
  let orderId := data.bind OrderData.id
  if strTruthy orderId then
    match res with
    | .ok result =>
      let sr := getStatus result
      (⟨sr.status, { sr.data with
          capture_id := getCaptureId result,
          currency_code := some (getCurrencyCode result) }⟩,
        [Call.getOrder (orderId.getD "")])
    | .err _ => (⟨.error, data.getD OrderData.empty⟩, [Call.getOrder (orderId.getD "")])
  else
    (⟨.pending, data.getD OrderData.empty⟩, [])

/-- Embeds `authorizePayment` of `src/src/service.ts` lines 186-231: a
missing order id is an invalid-data error; a successful `captureOrder`
response is status-mapped with `capture_id`/`currency_code` merged in; a
failed `captureOrder` falls back to `getPaymentStatus` exactly when the
error's status code is 422, and is otherwise wrapped in an authorization
error.  `getOrderRes` answers the `getOrder` the fallback may issue. -/
def authorizePayment (data : Option OrderData) (captureRes : CallResult OrderData)
    (getOrderRes : CallResult OrderData) : Except MedusaErr StatusResult × List Call :=
  let orderId := data.bind OrderData.id
  if strTruthy orderId then
    match captureRes with
    | .ok result =>
      let sr := getStatus result
      (.ok ⟨sr.status, { sr.data with
          capture_id := getCaptureId result,
          currency_code := some (getCurrencyCode result) }⟩,
        [Call.captureOrder (orderId.getD "")])
    | .err e =>
      if e.statusCode = some 422 then
        let fallback := getPaymentStatus data getOrderRes
        (.ok fallback.1, Call.captureOrder (orderId.getD "") :: fallback.2)
      else
        (.error ⟨.paymentAuthorizationError,
          "PayPal authorizePayment failed: " ++ e.message⟩,
          [Call.captureOrder (orderId.getD "")])
  else
    (.error ⟨.invalidData, "No PayPal order ID found for authorizePayment"⟩, [])

/-- Embeds `refundPayment` of `src/src/service.ts` lines 307-358: the
capture id is resolved by the multi-path lookup before any network call; a
missing capture id is an invalid-data error thrown with no call made.  A
truthy (nonzero) amount adds a refund-amount body of the upper-cased
multi-path currency and `new BigNumber(amount).numeric.toFixed(2)`; a
processor failure is wrapped in an authorization error. -/
def refundPayment (data : Option OrderData) (amount : Option ℕ)
    (res : CallResult OrderData) : Except MedusaErr OrderData × List Call :=
  let captureId := getCaptureIdOpt data
  if strTruthy captureId then
    let refundAmount : Option (String × String) :=
      match amount with
      | some a => if a ≠ 0 then
          some (jsToUpper (getCurrencyCodeOpt data), bignumToFixed2 a) else none
      | none => none
    let call := Call.refundCaptured (captureId.getD "") refundAmount
    match res with
    | .ok result => (.ok result, [call])
    | .err e =>
      (.error ⟨.paymentAuthorizationError, "PayPal refundPayment failed: " ++ e.message⟩,
        [call])
  else
    (.error ⟨.invalidData, "No capture ID found for refund"⟩, [])

/-- A vaulted payment token (only the field the adapter reads). -/
structure PaymentToken where
  id : Option String
deriving DecidableEq

/-- Result of the Vault token-listing call:
`response.result.paymentTokens` may be absent. -/
structure TokenListResult where
  paymentTokens : Option (List PaymentToken)
deriving DecidableEq

/-- One entry of `listPaymentMethods`' output: `{ id: token.id, data: token }`. -/
structure PaymentMethodOut where
  id : Option String
  data : PaymentToken
deriving DecidableEq

/-- Output of `savePaymentMethod`: `{ id: response.result.id || "", data }`. -/
structure SaveOut where
  id : String
  data : PaymentToken
deriving DecidableEq

/-- Embeds `savePaymentMethod` of `src/src/service.ts` lines 548-579: a
missing (non-truthy) account-holder id is an invalid-data error thrown
before any call; otherwise a setup token is created and a processor
failure is wrapped in an authorization error.  (The card payload only
fills body fields no claim mentions and is not modelled.) -/
def savePaymentMethod (accountHolderId : Option String) (res : CallResult PaymentToken) :
    Except MedusaErr SaveOut × List Call :=
  if strTruthy accountHolderId then
    let call := Call.createSetupToken (accountHolderId.getD "")
    match res with
    | .ok result => (.ok ⟨jsOrStr result.id "", result⟩, [call])
    | .err e =>
      (.error ⟨.paymentAuthorizationError, "PayPal savePaymentMethod failed: " ++ e.message⟩,
        [call])
  else
    (.error ⟨.invalidData, "Missing account holder ID for saving payment method"⟩, [])

/-- Embeds `listPaymentMethods` of `src/src/service.ts` lines 584-609: a
missing (non-truthy) account-holder id returns `[]` with no call and no
error; otherwise tokens are listed (page size 100) and mapped; a failure
with status code 404 returns `[]`, any other failure is wrapped in an
invalid-data error. -/
def listPaymentMethods (accountHolderId : Option String) (res : CallResult TokenListResult) :
    Except MedusaErr (List PaymentMethodOut) × List Call :=
  if strTruthy accountHolderId then
    let call := Call.listTokens (accountHolderId.getD "") 100
    match res with
    | .ok result =>
      (.ok ((result.paymentTokens.getD []).map (fun t => ⟨t.id, t⟩)), [call])
    | .err e =>
      if e.statusCode = some 404 then (.ok [], [call])
      else
        (.error ⟨.invalidData, "PayPal listPaymentMethods failed: " ++ e.message⟩, [call])
  else
    (.ok [], [])

/-- Host action tags returned from webhook dispatch
(`PaymentActions` of the Medusa framework). -/
inductive PaymentAction where
  | successful
  | failed
  | authorized
  | notSupported
deriving DecidableEq

/-- The `amount` object of a webhook resource. -/
structure WebhookAmount where
  value : Option String
deriving DecidableEq

/-- A purchase unit inside a `CHECKOUT.ORDER.APPROVED` webhook resource. -/
structure WebhookUnit where
  custom_id : Option String
  customId : Option String
  amount : Option WebhookAmount
deriving DecidableEq

/-- The `resource` object of a webhook event envelope. -/
structure WebhookResource where
  custom_id : Option String
  customId : Option String
  amount : Option WebhookAmount
  purchaseUnits : Option (List WebhookUnit)
  purchase_units : Option (List WebhookUnit)
deriving DecidableEq

/-- A webhook event envelope: `event_type` plus `resource`. -/
structure WebhookPayload where
  event_type : Option String
  resource : Option WebhookResource
deriving DecidableEq

/-- `{ action, data: { session_id, amount } }` returned by
`getWebhookActionAndData`; `amount : Option ℚ` embeds the JS number, with
`none` standing for `NaN`. -/
structure WebhookActionResult where
  action : PaymentAction
  session_id : Option String
  amount : Option ℚ
deriving DecidableEq

/-- Embeds the JS array coalescing
`resource?.purchaseUnits || resource?.purchase_units || []`: a defined
array (even empty) is truthy, `undefined` falls through. -/
def jsOrList (a b : Option (List WebhookUnit)) : List WebhookUnit :=
  match a with
  | some l => l
  | none => match b with
    | some l => l
    | none => []

/-- The local `getAmount` helper of `getWebhookActionAndData` in
`src/src/service.ts` line 386: `parseFloat(obj?.amount?.value || "0")` —
note no minor-unit scaling in the current revision. -/
def webhookAmount (r : Option WebhookResource) : Option ℚ :=
  parseFloatQ (jsOrStr ((r.bind WebhookResource.amount).bind WebhookAmount.value) "0")

/-- `session_id: resource?.custom_id || resource?.customId`. -/
def webhookSession (r : Option WebhookResource) : Option String :=
  jsOr (r.bind WebhookResource.custom_id) (r.bind WebhookResource.customId)

/-- Embeds `getWebhookActionAndData` of `src/src/service.ts` lines 381-433
(current revision): the `switch` on `event_type` becomes ordered equality
tests; capture events read `custom_id`/`customId` and the amount from the
resource, `CHECKOUT.ORDER.APPROVED` reads them from the first purchase
unit, and unrecognized event types yield `NOT_SUPPORTED` with empty
session id and amount `0`. -/
def getWebhookActionAndData (p : WebhookPayload) : WebhookActionResult :=
  let et := p.event_type
  if et = some "PAYMENT.CAPTURE.COMPLETED" then
    ⟨.successful, webhookSession p.resource, webhookAmount p.resource⟩
  else if et = some "PAYMENT.CAPTURE.DENIED" ∨ et = some "PAYMENT.CAPTURE.DECLINED" then
    ⟨.failed, webhookSession p.resource, webhookAmount p.resource⟩
  else if et = some "CHECKOUT.ORDER.APPROVED" then
    let units := jsOrList (p.resource.bind WebhookResource.purchaseUnits)
      (p.resource.bind WebhookResource.purchase_units)
    ⟨.authorized,
      jsOr (units.head?.bind WebhookUnit.custom_id) (units.head?.bind WebhookUnit.customId),
      parseFloatQ (jsOrStr ((units.head?.bind WebhookUnit.amount).bind WebhookAmount.value) "0")⟩
  else if et = some "PAYMENT.CAPTURE.REFUNDED" then
    ⟨.successful, webhookSession p.resource, webhookAmount p.resource⟩
  else
    ⟨.notSupported, some "", some 0⟩

/-- Embeds `getWebhookActionAndData` of the legacy revision
`src/unnamed/part_001` lines 316-369 (matching the shipped
`dist/service.js`): identical dispatch, but the local `getAmount` helper is
`parseFloat(obj?.amount?.value || "0") * 100` — amounts are scaled to
minor units. -/
def getWebhookActionAndDataV1 (p : WebhookPayload) : WebhookActionResult :=
  let et := p.event_type
  if et = some "PAYMENT.CAPTURE.COMPLETED" then
    ⟨.successful, webhookSession p.resource, (webhookAmount p.resource).map (· * 100)⟩
  else if et = some "PAYMENT.CAPTURE.DENIED" ∨ et = some "PAYMENT.CAPTURE.DECLINED" then
    ⟨.failed, webhookSession p.resource, (webhookAmount p.resource).map (· * 100)⟩
  else if et = some "CHECKOUT.ORDER.APPROVED" then
    let units := jsOrList (p.resource.bind WebhookResource.purchaseUnits)
      (p.resource.bind WebhookResource.purchase_units)
    ⟨.authorized,
      jsOr (units.head?.bind WebhookUnit.custom_id) (units.head?.bind WebhookUnit.customId),
      (parseFloatQ (jsOrStr ((units.head?.bind WebhookUnit.amount).bind WebhookAmount.value) "0")).map
        (· * 100)⟩
  else if et = some "PAYMENT.CAPTURE.REFUNDED" then
    ⟨.successful, webhookSession p.resource, (webhookAmount p.resource).map (· * 100)⟩
  else
    ⟨.notSupported, some "", some 0⟩

/-- The `PAYMENT.CAPTURE.COMPLETED` event of claim C2: resource with
`custom_id "sess_1"` and amount value `"12.34"`. -/
def evCaptureCompleted : WebhookPayload :=
  ⟨some "PAYMENT.CAPTURE.COMPLETED", some ⟨some "sess_1", none, some ⟨some "12.34"⟩, none, none⟩⟩

end PayPal

namespace PayPal

theorem charToDigit_digitChar : ∀ d < 10, charToDigit (digitChar d) = some d := by
  decide

theorem parseDigitsAux_append (l₁ l₂ : List Char) (acc : ℕ) :
    parseDigitsAux (l₁ ++ l₂) acc =
      (parseDigitsAux l₁ acc).bind (fun a => parseDigitsAux l₂ a) := by
  induction l₁ generalizing acc with
  | nil => simp [parseDigitsAux]
  | cons c cs ih =>
    simp only [List.cons_append, parseDigitsAux]
    cases charToDigit c with
    | none => simp
    | some d => simp [ih]

theorem parseDigitsAux_natChars :
    ∀ (fuel n acc : ℕ), n < 10 ^ fuel →
      parseDigitsAux (natChars fuel n) acc =
        some (acc * 10 ^ (natChars fuel n).length + n) := by
  intro fuel
  induction fuel with
  | zero =>
    intro n acc h
    have hn : n = 0 := by simpa using h
    subst hn
    simp [natChars, parseDigitsAux]
  | succ f ih =>
    intro n acc h
    by_cases h10 : n < 10
    · simp only [natChars, if_pos h10, parseDigitsAux,
        charToDigit_digitChar n h10]
      simp [parseDigitsAux]
      ring
    · have hdiv : n / 10 < 10 ^ f := by
        rw [Nat.div_lt_iff_lt_mul (by norm_num)]
        calc n < 10 ^ (f + 1) := h
        _ = 10 ^ f * 10 := by rw [pow_succ]
      simp only [natChars, if_neg h10]
      rw [parseDigitsAux_append, ih (n / 10) acc hdiv]
      have hmod : n % 10 < 10 := Nat.mod_lt _ (by norm_num)
      simp only [Option.some_bind, parseDigitsAux, charToDigit_digitChar (n % 10) hmod,
        List.length_append, List.length_cons, List.length_nil, Nat.zero_add]
      refine congrArg some ?_
      calc 10 * (acc * 10 ^ (natChars f (n / 10)).length + n / 10) + n % 10
          = acc * (10 ^ (natChars f (n / 10)).length * 10) +
            (10 * (n / 10) + n % 10) := by ring
        _ = acc * 10 ^ ((natChars f (n / 10)).length + 1) + n := by
            rw [Nat.div_add_mod, ← pow_succ]

theorem natChars_ne_nil (f n : ℕ) : natChars (f + 1) n ≠ [] := by
  simp only [natChars]
  split <;> simp

theorem parseNat_eq_aux (l : List Char) (h : l ≠ []) :
    parseNat l = parseDigitsAux l 0 := by
  cases l with
  | nil => exact absurd rfl h
  | cons c cs => rfl

theorem parseNat_natChars (n : ℕ) : parseNat (natChars (n + 1) n) = some n := by
  have hlt : n < 10 ^ (n + 1) :=
    lt_of_lt_of_le (Nat.lt_pow_self (by norm_num) n)
      (Nat.pow_le_pow_right (by norm_num) (Nat.le_succ n))
  rw [parseNat_eq_aux _ (natChars_ne_nil n n),
    parseDigitsAux_natChars (n + 1) n 0 hlt]
  simp

theorem natChars_all_digits :
    ∀ (f n : ℕ), ∀ c ∈ natChars f n, ∃ d, d < 10 ∧ c = digitChar d := by
  intro f
  induction f with
  | zero => intro n c hc; simp [natChars] at hc
  | succ f ih =>
    intro n c hc
    by_cases h10 : n < 10
    · simp only [natChars, if_pos h10, List.mem_singleton] at hc
      exact ⟨n, h10, hc⟩
    · simp only [natChars, if_neg h10, List.mem_append,
        List.mem_singleton] at hc
      rcases hc with hc | hc
      · exact ih (n / 10) c hc
      · exact ⟨n % 10, Nat.mod_lt _ (by norm_num), hc⟩

theorem dot_not_mem_natChars (f n : ℕ) : '.' ∉ natChars f n := by
  intro hmem
  obtain ⟨d, hd, heq⟩ := natChars_all_digits f n '.' hmem
  revert heq
  revert hd
  revert d
  decide

theorem splitDot_append (l₁ l₂ : List Char) (h : '.' ∉ l₁) :
    splitDot (l₁ ++ '.' :: l₂) = some (l₁, l₂) := by
  induction l₁ with
  | nil => simp [splitDot]
  | cons c cs ih =>
    have hc : ¬c = '.' := fun hc => h (by simp [hc])
    have hcs : '.' ∉ cs := fun hm => h (by simp [hm])
    simp only [List.cons_append, splitDot, if_neg hc]
    rw [List.append_eq, ih hcs]

theorem natChars_small (f n : ℕ) (h : n < 10) : natChars (f + 1) n = [digitChar n] := by
  simp [natChars, h]

theorem natChars_two (n : ℕ) (h10 : 10 ≤ n) (h100 : n < 100) :
    natChars (n + 1) n = [digitChar (n / 10), digitChar (n % 10)] := by
  obtain ⟨k, rfl⟩ : ∃ k, n = k + 1 := ⟨n - 1, by omega⟩
  have hn10 : ¬k + 1 < 10 := by omega
  have hdiv : (k + 1) / 10 < 10 := by omega
  simp only [natChars, if_neg hn10]
  rw [if_pos hdiv]
  rfl

theorem pad2_length (m : ℕ) (h : m < 100) : (pad2 m).length = 2 := by
  by_cases h10 : m < 10
  · simp [pad2, h10]
  · simp [pad2, h10, natChars_two m (by omega) h]

theorem parseNat_pad2 (m : ℕ) (h : m < 100) : parseNat (pad2 m) = some m := by
  by_cases h10 : m < 10
  · have h0 : charToDigit '0' = some 0 := by decide
    simp [pad2, h10, parseNat, parseDigitsAux, h0, charToDigit_digitChar m (by omega)]
  · simp only [pad2, if_neg h10]
    exact parseNat_natChars m

theorem dot_not_mem_pad2 (m : ℕ) : '.' ∉ pad2 m := by
  by_cases h10 : m < 10
  · simp only [pad2, if_pos h10]
    intro hmem
    simp only [List.mem_cons, List.mem_singleton, List.not_mem_nil, or_false] at hmem
    rcases hmem with hmem | hmem
    · exact absurd hmem (by decide)
    · obtain ⟨d, hd, heq⟩ : ∃ d, d < 10 ∧ ('.' : Char) = digitChar d :=
        ⟨m, h10, hmem⟩
      revert heq
      revert hd
      revert d
      decide
  · simp only [pad2, if_neg h10]
    exact dot_not_mem_natChars (m + 1) m

theorem decimalToCents_toFixed2Cents (A : ℕ) :
    decimalToCents (toFixed2Cents A) = some A := by
  have hmod : A % 100 < 100 := Nat.mod_lt _ (by norm_num)
  have hsplit : splitDot (toFixed2Cents A).data =
      some (natChars (A / 100 + 1) (A / 100), pad2 (A % 100)) := by
    show splitDot (natChars (A / 100 + 1) (A / 100) ++ '.' :: pad2 (A % 100)) = _
    exact splitDot_append _ _ (dot_not_mem_natChars _ _)
  simp only [decimalToCents, hsplit, pad2_length (A % 100) hmod,
    parseNat_natChars (A / 100), parseNat_pad2 (A % 100) hmod, Nat.div_add_mod]
  simp

theorem decimalToCents_bignumToFixed2 (A : ℕ) :
    decimalToCents (bignumToFixed2 A) = some (100 * A) := by
  have hsplit : splitDot (bignumToFixed2 A).data =
      some (natChars (A + 1) A, ['0', '0']) := by
    show splitDot (natChars (A + 1) A ++ '.' :: ['0', '0']) = _
    exact splitDot_append _ _ (dot_not_mem_natChars _ _)
  have h00 : parseNat ['0', '0'] = some 0 := by decide
  simp [decimalToCents, hsplit, parseNat_natChars A, h00]

/-- C1 counterexample: in the current revision (`src/src/service.ts` line
147) `initiatePayment` renders the amount with
`new BigNumber(amount).numeric.toFixed(2)` — no division by 100 — so the
minor-unit amount 350 is sent to the processor as `"350.00"`, not
`"3.50"` as the claim states (the legacy conversion of
`part_000`/`part_001`/`dist` does produce `"3.50"` and `"1.00"`). -/
theorem C1_counterexample :
    (initiatePayment "USD" 350 none (.ok OrderData.empty)).2 =
      [.createOrder "USD" "350.00" none] ∧
    ("350.00" : String) ≠ "3.50" ∧
    toFixed2Cents 350 = "3.50" ∧ toFixed2Cents 100 = "1.00" := by
  decide

/-- C1 (amended): the minor→decimal division by 100 holds only in the
legacy revisions: `initiatePaymentLegacy` (`part_000` line 100, matching
`dist`) sends `(A / 100).toFixed(2)` — an integer part, a dot, and exactly
two fraction digits — and parsing that decimal string back yields exactly
`A` cents, i.e. `A / 100` to two-decimal precision.  The current
`src/src/service.ts` (`initiatePayment` line 147, `refundPayment` line
334) formats the amount unscaled, `A.toFixed(2)`, which parses back to
`100 * A` cents (`A` whole currency units). -/
theorem C1_amended_conversion (A : ℕ) :
    (∀ (cc : String) (sid : Option String) (res : CallResult OrderData),
      (initiatePaymentLegacy cc A sid res).2 =
        [.createOrder (jsToUpper cc) (toFixed2Cents A) (jsOrUndef sid)]) ∧
    (toFixed2Cents A).data =
      natChars (A / 100 + 1) (A / 100) ++ '.' :: pad2 (A % 100) ∧
    (pad2 (A % 100)).length = 2 ∧
    decimalToCents (toFixed2Cents A) = some A ∧
    (∀ (cc : String) (sid : Option String) (res : CallResult OrderData),
      (initiatePayment cc A sid res).2 =
        [.createOrder (jsToUpper cc) (bignumToFixed2 A) (jsOrUndef sid)]) ∧
    (∀ (data : Option OrderData) (res : CallResult OrderData),
      strTruthy (getCaptureIdOpt data) = true → A ≠ 0 →
      (refundPayment data (some A) res).2 =
        [.refundCaptured ((getCaptureIdOpt data).getD "")
          (some (jsToUpper (getCurrencyCodeOpt data), bignumToFixed2 A))]) ∧
    decimalToCents (bignumToFixed2 A) = some (100 * A) := by
  refine ⟨?_, rfl, pad2_length (A % 100) (Nat.mod_lt _ (by norm_num)),
    decimalToCents_toFixed2Cents A, ?_, ?_, decimalToCents_bignumToFixed2 A⟩
  · intro cc sid res
    cases res <;> rfl
  · intro cc sid res
    cases res <;> rfl
  · intro data res h hA
    cases res <;> simp [refundPayment, h, hA]

/-- The legacy conversion at `A = 350` (sent as `"3.50"`, parsed back to
350 cents) and the current conversion's refund path at `A = 350` with a
stored capture id (sent as `"350.00"`), via `C1_amended_conversion`. -/
theorem C1_witness :
    (initiatePaymentLegacy "usd" 350 none (.ok OrderData.empty)).2 =
      [.createOrder "USD" "3.50" none] ∧
    decimalToCents (toFixed2Cents 350) = some 350 ∧
    (refundPayment (some { OrderData.empty with capture_id := some "CAP_1" })
        (some 350) (.ok OrderData.empty)).2 =
      [.refundCaptured "CAP_1" (some ("USD", "350.00"))] := by
  refine ⟨?_, (C1_amended_conversion 350).2.2.2.1, ?_⟩
  · have h := (C1_amended_conversion 350).1 "usd" none (.ok OrderData.empty)
    rw [h]
    decide
  · have h := (C1_amended_conversion 350).2.2.2.2.2.1
      (some { OrderData.empty with capture_id := some "CAP_1" })
      (.ok OrderData.empty) (by decide) (by decide)
    rw [h]
    decide

/-- C2 counterexample: in the current revision (`src/src/service.ts` lines
381-433) the `PAYMENT.CAPTURE.COMPLETED` event with `custom_id "sess_1"`
and amount value `"12.34"` yields amount `12.34` (the parsed value, major
units), not `1234` minor units as the claim states. -/
theorem C2_counterexample :
    (getWebhookActionAndData evCaptureCompleted).amount = some ((617 : ℚ) / 50) ∧
    ((617 : ℚ) / 50) ≠ (1234 : ℚ) := by
  constructor
  · have hpf : parseFloatQ "12.34" = some ((617 : ℚ) / 50) := by
      have h : splitDot "12.34".data = some (['1', '2'], ['3', '4']) := by decide
      have h1 : parseNat ['1', '2'] = some 12 := by decide
      have h2 : parseNat ['3', '4'] = some 34 := by decide
      simp [parseFloatQ, h, h1, h2]
      norm_num
    have hstr : jsOrStr ((Option.bind (evCaptureCompleted.resource.bind WebhookResource.amount)
        WebhookAmount.value)) "0" = "12.34" := by decide
    have hA : webhookAmount evCaptureCompleted.resource = some ((617 : ℚ) / 50) := by
      rw [webhookAmount, hstr, hpf]
    simp [getWebhookActionAndData, evCaptureCompleted] at hA ⊢
    rw [hA]
  · norm_num

/-- C2 (amended): the `PAYMENT.CAPTURE.COMPLETED` event with
`custom_id "sess_1"` and amount value `"12.34"` yields action SUCCESSFUL
with session `"sess_1"` in every revision, but the amount is `12.34`
(major units, unscaled `parseFloat`) in the current `src/src/service.ts`
and `1234` minor units only in the legacy revisions
(`part_001`/`part_000`/`dist`, which multiply by 100); in both variants
every unrecognized event type yields NOT_SUPPORTED with amount `0` and
empty session id. -/
theorem C2_amended_webhook :
    getWebhookActionAndData evCaptureCompleted =
      ⟨.successful, some "sess_1", some ((617 : ℚ) / 50)⟩ ∧
    getWebhookActionAndDataV1 evCaptureCompleted =
      ⟨.successful, some "sess_1", some (1234 : ℚ)⟩ ∧
    ∀ (e : Option String) (r : Option WebhookResource),
      e ∉ [some "PAYMENT.CAPTURE.COMPLETED", some "PAYMENT.CAPTURE.DENIED",
        some "PAYMENT.CAPTURE.DECLINED", some "CHECKOUT.ORDER.APPROVED",
        some "PAYMENT.CAPTURE.REFUNDED"] →
      getWebhookActionAndData ⟨e, r⟩ = ⟨.notSupported, some "", some 0⟩ ∧
      getWebhookActionAndDataV1 ⟨e, r⟩ = ⟨.notSupported, some "", some 0⟩ := by
  have hpf : parseFloatQ "12.34" = some ((617 : ℚ) / 50) := by
    have h : splitDot "12.34".data = some (['1', '2'], ['3', '4']) := by decide
    have h1 : parseNat ['1', '2'] = some 12 := by decide
    have h2 : parseNat ['3', '4'] = some 34 := by decide
    simp [parseFloatQ, h, h1, h2]
    norm_num
  have hstr : jsOrStr ((Option.bind (evCaptureCompleted.resource.bind WebhookResource.amount)
      WebhookAmount.value)) "0" = "12.34" := by decide
  have hA : webhookAmount evCaptureCompleted.resource = some ((617 : ℚ) / 50) := by
    rw [webhookAmount, hstr, hpf]
  have hS : webhookSession evCaptureCompleted.resource = some "sess_1" := by decide
  refine ⟨?_, ?_, ?_⟩
  · simp [getWebhookActionAndData, evCaptureCompleted] at hA hS ⊢
    rw [hA, hS]
    exact ⟨rfl, rfl⟩
  · simp [getWebhookActionAndDataV1, evCaptureCompleted] at hA hS ⊢
    rw [hA, hS]
    refine ⟨rfl, ?_⟩
    norm_num
  · intro e r he
    simp only [List.mem_cons, List.not_mem_nil, or_false, not_or] at he
    obtain ⟨h1, h2, h3, h4, h5⟩ := he
    constructor
    · simp [getWebhookActionAndData, h1, h2, h3, h4, h5]
    · simp [getWebhookActionAndDataV1, h1, h2, h3, h4, h5]

/-- An unrecognized event type (`"X.UNKNOWN"`) maps to NOT_SUPPORTED with
amount `0` and empty session id, via `C2_amended_webhook`. -/
theorem C2_witness :
    getWebhookActionAndData ⟨some "X.UNKNOWN", none⟩ =
      ⟨.notSupported, some "", some 0⟩ ∧
    getWebhookActionAndDataV1 ⟨some "X.UNKNOWN", none⟩ =
      ⟨.notSupported, some "", some 0⟩ :=
  C2_amended_webhook.2.2 (some "X.UNKNOWN") none (by decide)

/-- C3: capture-id extraction precedence in `getCaptureId`
(`src/src/service.ts` lines 92-109): the flat `capture_id` field wins when
present (JS-truthy, i.e. defined and nonempty), otherwise the camelCase
nested path `purchaseUnits[0].payments.captures[0].id`, otherwise the
snake_case path `purchase_units[0].payments.captures[0].id`, otherwise the
fallback path `payments.captures[0].id`; in particular when both nested
casings are populated (and no flat field is), the camelCase value is
returned. -/
theorem C3_capture_id_precedence (r : OrderData) :
    (strTruthy r.capture_id = true → getCaptureId r = r.capture_id) ∧
    (strTruthy r.capture_id = false → strTruthy (capCamel r) = true →
      getCaptureId r = capCamel r) ∧
    (strTruthy r.capture_id = false → strTruthy (capCamel r) = false →
      strTruthy (capSnake r) = true → getCaptureId r = capSnake r) ∧
    (strTruthy r.capture_id = false → strTruthy (capCamel r) = false →
      strTruthy (capSnake r) = false → getCaptureId r = capFallback r) := by
  refine ⟨fun h1 => ?_, fun h1 h2 => ?_, fun h1 h2 h3 => ?_, fun h1 h2 h3 => ?_⟩ <;>
    simp [getCaptureId, h1]
  · simp [h2]
  · simp [h2, h3]
  · simp [h2, h3]

/-- Concrete record with both nested capture arrays populated and no flat
field: the camelCase id is returned, per `C3_capture_id_precedence`. -/
theorem C3_witness :
    getCaptureId
      { OrderData.empty with
        purchaseUnits := some [⟨none, some ⟨some [⟨some "CAP_CAMEL"⟩]⟩⟩],
        purchase_units := some [⟨none, some ⟨some [⟨some "CAP_SNAKE"⟩]⟩⟩] } =
      some "CAP_CAMEL" := by
  have h := (C3_capture_id_precedence
    { OrderData.empty with
      purchaseUnits := some [⟨none, some ⟨some [⟨some "CAP_CAMEL"⟩]⟩⟩],
      purchase_units := some [⟨none, some ⟨some [⟨some "CAP_SNAKE"⟩]⟩⟩] }).2.1
    (by decide) (by decide)
  simpa [capCamel, OrderData.empty] using h

/-- C4: the processor-status-to-host-status map `getStatus`
(`src/src/service.ts` lines 438-475) is total and deterministic (it is a
Lean function, hence never throws): `CREATED`, `SAVED` and `APPROVED` map to
`pending`, `PAYER_ACTION_REQUIRED` to `requiresMore`, `COMPLETED` to
`captured`, `VOIDED` to `canceled`, and any unrecognized (or absent) status
to `pending`; the order record is echoed unchanged as `data`. -/
theorem C4_status_mapping (o : OrderData) :
    ((o.status = some "CREATED" ∨ o.status = some "SAVED" ∨
        o.status = some "APPROVED") → getStatus o = ⟨.pending, o⟩) ∧
    (o.status = some "PAYER_ACTION_REQUIRED" →
      getStatus o = ⟨.requiresMore, o⟩) ∧
    (o.status = some "COMPLETED" → getStatus o = ⟨.captured, o⟩) ∧
    (o.status = some "VOIDED" → getStatus o = ⟨.canceled, o⟩) ∧
    (o.status ∉ [some "CREATED", some "SAVED", some "APPROVED",
        some "PAYER_ACTION_REQUIRED", some "COMPLETED", some "VOIDED"] →
      getStatus o = ⟨.pending, o⟩) := by
  refine ⟨fun h => ?_, fun h => ?_, fun h => ?_, fun h => ?_, fun h => ?_⟩
  · rcases h with h | h | h <;> simp [getStatus, h]
  · simp [getStatus, h]
  · simp [getStatus, h]
  · simp [getStatus, h]
  · simp only [List.mem_cons, List.not_mem_nil, or_false, not_or] at h
    obtain ⟨h1, h2, h3, h4, h5, h6⟩ := h
    simp [getStatus, h1, h2, h3, h4, h5, h6]

/-- `getStatus` evaluated through `C4_status_mapping` at a `COMPLETED`
order and at an unrecognized status string. -/
theorem C4_witness :
    getStatus { OrderData.empty with status := some "COMPLETED" } =
      ⟨.captured, { OrderData.empty with status := some "COMPLETED" }⟩ ∧
    getStatus { OrderData.empty with status := some "PARTIALLY_SETTLED" } =
      ⟨.pending, { OrderData.empty with status := some "PARTIALLY_SETTLED" }⟩ := by
  constructor
  · exact (C4_status_mapping
      { OrderData.empty with status := some "COMPLETED" }).2.2.1 rfl
  · exact (C4_status_mapping
      { OrderData.empty with status := some "PARTIALLY_SETTLED" }).2.2.2.2
      (by decide)

/-- C5 counterexample: a processor conflict failure with status code 409
(an "already captured" 409/422-class response per the claim) does NOT fall
back to `getPaymentStatus` — `src/src/service.ts` line 226 tests
`error.statusCode === 422` only, so the 409 is thrown as an authorization
error. -/
theorem C5_counterexample :
    authorizePayment (some { OrderData.empty with id := some "ORD1" })
        (.err ⟨some 409, "already captured"⟩)
        (.ok { OrderData.empty with status := some "COMPLETED" }) =
      (.error ⟨.paymentAuthorizationError,
          "PayPal authorizePayment failed: already captured"⟩,
        [.captureOrder "ORD1"]) ∧
    (authorizePayment (some { OrderData.empty with id := some "ORD1" })
        (.err ⟨some 409, "already captured"⟩)
        (.ok { OrderData.empty with status := some "COMPLETED" })).1 ≠
      .ok (getPaymentStatus (some { OrderData.empty with id := some "ORD1" })
        (.ok { OrderData.empty with status := some "COMPLETED" })).1 := by
  decide

/-- C5 (amended): when `authorizePayment`'s capture-order call fails with
status code exactly 422 it returns the result of `getPaymentStatus` on the
same input (with the capture call prepended to the call log); every other
capture-order failure — including a 409 — is thrown as an authorization
error wrapping the upstream message. -/
theorem C5_amended_conflict_fallback (data : Option OrderData) (e : ApiError)
    (g : CallResult OrderData) (h : strTruthy (data.bind OrderData.id) = true) :
    (e.statusCode = some 422 →
      authorizePayment data (.err e) g =
        (.ok (getPaymentStatus data g).1,
          Call.captureOrder ((data.bind OrderData.id).getD "") ::
            (getPaymentStatus data g).2)) ∧
    (e.statusCode ≠ some 422 →
      authorizePayment data (.err e) g =
        (.error ⟨.paymentAuthorizationError,
            "PayPal authorizePayment failed: " ++ e.message⟩,
          [Call.captureOrder ((data.bind OrderData.id).getD "")])) := by
  constructor <;> intro h422 <;> simp [authorizePayment, h, h422]

/-- A 422 conflict on order `"ORD1"` whose status fetch then fails: the
fallback's error-status value is returned, via
`C5_amended_conflict_fallback`. -/
theorem C5_witness :
    authorizePayment (some { OrderData.empty with id := some "ORD1" })
        (.err ⟨some 422, "conflict"⟩) (.err ⟨none, "down"⟩) =
      (.ok ⟨.error, { OrderData.empty with id := some "ORD1" }⟩,
        [.captureOrder "ORD1", .getOrder "ORD1"]) := by
  have h := (C5_amended_conflict_fallback
    (some { OrderData.empty with id := some "ORD1" }) ⟨some 422, "conflict"⟩
    (.err ⟨none, "down"⟩) (by decide)).1 rfl
  rw [h]
  decide

/-- C6: `refundPayment` with no capture id resolvable by the multi-path
lookup fails with an invalid-data error for every amount (supplied or
not), and its call log is empty — the check at `src/src/service.ts` lines
314-322 precedes the refund call. -/
theorem C6_refund_requires_capture_id (data : Option OrderData) (amount : Option ℕ)
    (res : CallResult OrderData) (h : strTruthy (getCaptureIdOpt data) = false) :
    refundPayment data amount res =
      (.error ⟨.invalidData, "No capture ID found for refund"⟩, []) := by
  simp [refundPayment, h]

/-- A refund of 500 with no session data at all: invalid-data error, no
call, via `C6_refund_requires_capture_id`. -/
theorem C6_witness :
    refundPayment none (some 500) (.ok OrderData.empty) =
      (.error ⟨.invalidData, "No capture ID found for refund"⟩, []) :=
  C6_refund_requires_capture_id none (some 500) (.ok OrderData.empty) (by decide)

/-- C7: `getPaymentStatus` with no truthy order id in its input returns
`pending` with the original input data unchanged (`{}` when the data
record itself is absent) and performs no network call —
`src/src/service.ts` lines 263-268 return before the `getOrder` call. -/
theorem C7_status_no_order_id :
    (∀ (d : OrderData) (res : CallResult OrderData), strTruthy d.id = false →
      getPaymentStatus (some d) res = (⟨.pending, d⟩, [])) ∧
    (∀ res : CallResult OrderData,
      getPaymentStatus none res = (⟨.pending, OrderData.empty⟩, [])) := by
  constructor
  · intro d res h
    simp [getPaymentStatus, h]
  · intro res
    simp [getPaymentStatus, strTruthy]

/-- A data record with a currency but no order id is echoed unchanged with
`pending` and an empty call log, via `C7_status_no_order_id`. -/
theorem C7_witness :
    getPaymentStatus (some { OrderData.empty with currency_code := some "EUR" })
        (.ok { OrderData.empty with status := some "COMPLETED" }) =
      (⟨.pending, { OrderData.empty with currency_code := some "EUR" }⟩, []) :=
  C7_status_no_order_id.1 { OrderData.empty with currency_code := some "EUR" }
    (.ok { OrderData.empty with status := some "COMPLETED" }) (by decide)

/-- C8: when the order fetch itself fails, `getPaymentStatus` returns a
value carrying the `error` status and the echoed input data — the `catch`
at `src/src/service.ts` lines 296-301 converts the failure into a result
instead of rethrowing (the operation's non-`Except` return type embeds
that it cannot throw). -/
theorem C8_status_fetch_failure (d : OrderData) (e : ApiError)
    (h : strTruthy d.id = true) :
    getPaymentStatus (some d) (.err e) = (⟨.error, d⟩, [.getOrder (d.id.getD "")]) := by
  simp [getPaymentStatus, h]

/-- A failing fetch for order `"ORD9"` yields the error-status value with
the input echoed, via `C8_status_fetch_failure`. -/
theorem C8_witness :
    getPaymentStatus (some { OrderData.empty with id := some "ORD9" })
        (.err ⟨some 500, "gateway down"⟩) =
      (⟨.error, { OrderData.empty with id := some "ORD9" }⟩, [.getOrder "ORD9"]) :=
  C8_status_fetch_failure { OrderData.empty with id := some "ORD9" }
    ⟨some 500, "gateway down"⟩ (by decide)

/-- C9: a token-listing failure with status code 404 makes
`listPaymentMethods` return the empty list (after having made the call);
any other failure is wrapped in an invalid-data error carrying the
upstream message (`src/src/service.ts` lines 603-608). -/
theorem C9_list_methods_404 (ahid : Option String) (e : ApiError)
    (h : strTruthy ahid = true) :
    (e.statusCode = some 404 →
      listPaymentMethods ahid (.err e) = (.ok [], [.listTokens (ahid.getD "") 100])) ∧
    (e.statusCode ≠ some 404 →
      listPaymentMethods ahid (.err e) =
        (.error ⟨.invalidData, "PayPal listPaymentMethods failed: " ++ e.message⟩,
          [.listTokens (ahid.getD "") 100])) := by
  constructor <;> intro h404 <;> simp [listPaymentMethods, h, h404]

/-- A 404 from listing tokens of `"paypal_cus_1"` yields the empty list,
and a 500 yields the wrapped invalid-data error, via
`C9_list_methods_404`. -/
theorem C9_witness :
    listPaymentMethods (some "paypal_cus_1") (.err ⟨some 404, "not found"⟩) =
      (.ok [], [.listTokens "paypal_cus_1" 100]) ∧
    listPaymentMethods (some "paypal_cus_1") (.err ⟨some 500, "boom"⟩) =
      (.error ⟨.invalidData, "PayPal listPaymentMethods failed: boom"⟩,
        [.listTokens "paypal_cus_1" 100]) :=
  ⟨(C9_list_methods_404 (some "paypal_cus_1") ⟨some 404, "not found"⟩ (by decide)).1 rfl,
   (C9_list_methods_404 (some "paypal_cus_1") ⟨some 500, "boom"⟩ (by decide)).2 (by decide)⟩

/-- C10: with no truthy account-holder id, `listPaymentMethods` returns
the empty list without throwing and without any processor call
(`src/src/service.ts` lines 587-589), while `savePaymentMethod` on the
same missing id throws an invalid-data error (lines 551-553), also before
any call. -/
theorem C10_missing_account_holder (ahid : Option String)
    (h : strTruthy ahid = false) :
    (∀ res : CallResult TokenListResult,
      listPaymentMethods ahid res = (.ok [], [])) ∧
    (∀ res : CallResult PaymentToken,
      savePaymentMethod ahid res =
        (.error ⟨.invalidData, "Missing account holder ID for saving payment method"⟩,
          [])) := by
  constructor <;> intro res <;> simp [listPaymentMethods, savePaymentMethod, h]

/-- An absent account-holder id: listing yields `[]` with no call, saving
throws the data error with no call, via `C10_missing_account_holder`. -/
theorem C10_witness :
    listPaymentMethods none (.ok ⟨some [⟨some "tok_1"⟩]⟩) = (.ok [], []) ∧
    savePaymentMethod none (.ok ⟨some "tok_1"⟩) =
      (.error ⟨.invalidData, "Missing account holder ID for saving payment method"⟩,
        []) :=
  ⟨(C10_missing_account_holder none (by decide)).1 (.ok ⟨some [⟨some "tok_1"⟩]⟩),
   (C10_missing_account_holder none (by decide)).2 (.ok ⟨some "tok_1"⟩)⟩

end PayPal
